import Mathlib

/-!
Verification development for the Upbit altcoin screener.

The definitions below are a shallow embedding of the screening pipeline of
`src/analysis/altcoin_screener.py`, the manual indicator computations of
`src/analysis/technical.py` (`_calculate_rsi_manual`, the manual branch of
`calculate_cci`) and the collector helpers of `src/data/collector.py`.
Python floats are modelled as rationals; a pandas value that would be `NaN`
(or a rolling window that is not yet full) is modelled as `Option.none`;
a dictionary returned by the collector is modelled either as an `Option`
of a record (the screener only tests the dictionaries for emptiness and
then reads keys the collector always sets) or, where the exact key set
matters, as an association list of string keys.
-/

namespace Screener

/-! ## OHLCV data model (`get_ohlcv_dataframe` rows, collector.py 159-194) -/

/-- One daily candle, as mapped into the OHLCV dataframe by
`get_ohlcv_dataframe` (`open`/`high`/`low`/`close`/`volume` columns). -/
structure Candle where
  opening : ℚ
  high : ℚ
  low : ℚ
  close : ℚ
  volume : ℚ
deriving DecidableEq

/-! ## Rolling-window helpers

`pandas.Series.rolling(window=p).mean()` evaluated at the final row: it has a
value exactly when the series has at least `p` entries, and that value is the
mean of the last `p` entries. -/

/-- The last `p` entries of a list (the trailing rolling window). -/
def lastWindow (p : ℕ) (xs : List ℚ) : List ℚ := xs.drop (xs.length - p)

/-- `rolling(p).mean()` at the last row: `none` when fewer than `p` entries
exist (pandas yields `NaN` there) or `p = 0`. -/
def rollMeanLast (p : ℕ) (xs : List ℚ) : Option ℚ :=
  if 0 < p ∧ p ≤ xs.length then some ((lastWindow p xs).sum / p) else none

/-! ## RSI (`TechnicalAnalyzer._calculate_rsi_manual`, technical.py 62-69)

```
delta = prices.diff()
gain = (delta.where(delta > 0, 0)).rolling(window=period).mean()
loss = (-delta.where(delta < 0, 0)).rolling(window=period).mean()
rs = gain / loss
rsi = 100 - (100 / (1 + rs))
```
`prices.diff()` has `NaN` at index 0, which `.where(delta > 0, 0)` replaces by
`0` (`NaN > 0` is false).  Division of floats follows IEEE: `g / 0 = +inf` for
`g > 0` so `rsi = 100`, while `0 / 0 = NaN` so `rsi = NaN` (modelled `none`). -/

/-- Consecutive differences `prices.diff()` (without the leading `NaN`). -/
def diffs (l : List ℚ) : List ℚ := List.zipWith (fun b a => b - a) l.tail l

/-- The series `delta.where(delta > 0, 0)`: a leading `0` (the replaced `NaN`)
followed by the positive parts of the diffs. -/
def gainsSeries : List ℚ → List ℚ
  | [] => []
  | l => 0 :: (diffs l).map (fun d => if 0 < d then d else 0)

/-- The series `(-delta).where(delta < 0, 0)`: a leading `0` followed by the
magnitudes of the negative diffs. -/
def lossesSeries : List ℚ → List ℚ
  | [] => []
  | l => 0 :: (diffs l).map (fun d => if d < 0 then -d else 0)

/-- `gain` at the last row. -/
def avgGainLast (prices : List ℚ) (period : ℕ) : Option ℚ :=
  rollMeanLast period (gainsSeries prices)

/-- `loss` at the last row. -/
def avgLossLast (prices : List ℚ) (period : ℕ) : Option ℚ :=
  rollMeanLast period (lossesSeries prices)

/-- `df['RSI'].iloc[-1]` as computed by `_calculate_rsi_manual`; `none` models
`NaN` (window not full, or the `0/0` case of a windowful of zero deltas). -/
def rsiLast (prices : List ℚ) (period : ℕ) : Option ℚ :=
  match avgGainLast prices period, avgLossLast prices period with
  | some g, some l =>
      if l = 0 then (if g = 0 then none else some 100)
      else some (100 - 100 / (1 + g / l))
  | _, _ => none

/-! ## CCI (manual branch of `TechnicalAnalyzer.calculate_cci`, technical.py 164-192)

```
typical_price = (df['high'] + df['low'] + df['close']) / 3
sma_tp = typical_price.rolling(window=period).mean()
mean_deviation = typical_price.rolling(window=period).apply(lambda x: np.mean(np.abs(x - x.mean())))
df['CCI'] = (typical_price - sma_tp) / (0.015 * mean_deviation)
```
When the mean deviation is `0` the whole window is constant, so the numerator
is also `0` and the float result is `0/0 = NaN` (modelled `none`). -/

/-- Typical price of one candle. -/
def typicalPrice (cd : Candle) : ℚ := (cd.high + cd.low + cd.close) / 3

/-- The trailing `p`-window of typical prices. -/
def tpWindow (candles : List Candle) (p : ℕ) : List ℚ :=
  lastWindow p (candles.map typicalPrice)

/-- `sma_tp` at the last row. -/
def smaLast (candles : List Candle) (p : ℕ) : Option ℚ :=
  rollMeanLast p (candles.map typicalPrice)

/-- `mean_deviation` at the last row. -/
def madLast (candles : List Candle) (p : ℕ) : Option ℚ :=
  if 0 < p ∧ p ≤ candles.length then
    some (((tpWindow candles p).map
      (fun x => |x - (tpWindow candles p).sum / p|)).sum / p)
  else none

/-- `df['CCI'].iloc[-1]`; `none` models `NaN` (window not full, or the
zero-mean-deviation `0/0` case). `0.015` is the exact rational `3/200`. -/
def cciLast (candles : List Candle) (p : ℕ) : Option ℚ :=
  match candles.getLast?, smaLast candles p, madLast candles p with
  | some lastC, some sma, some mad =>
      if mad = 0 then none
      else some ((typicalPrice lastC - sma) / (3 / 200 * mad))
  | _, _, _ => none

/-! ## Screening criteria (`ScreenerCriteria` dataclass, altcoin_screener.py 21-51) -/

/-- The screener's configuration record with the source's default values. -/
structure ScreenerCriteria where
  exchange : String := "UPBIT"
  base_currency : String := "KRW"
  min_daily_volume_krw : ℚ := 100000000
  max_listing_days : ℕ := 1648
  min_decline_from_ath : ℚ := 30
  volatility_min : ℚ := 10
  volatility_max : ℚ := 150
  cci_min : ℚ := -200
  cci_max : ℚ := 200
  cci_period : ℕ := 20
  rsi_min : ℚ := 20
  rsi_max : ℚ := 80
  rsi_period : ℕ := 14
  min_market_cap_krw : ℚ := 10000000000
  max_market_cap_krw : ℚ := 500000000000
  volume_growth_min : ℚ := 50
  volume_growth_days : ℕ := 7
  max_consecutive_decline : ℕ := 5
  max_recent_spike : ℚ := 30
  recent_spike_days : ℕ := 3
  require_above_ma : Bool := true
  ma_period : ℕ := 20

/-- `ScreenerCriteria()` with every field at its dataclass default. -/
def defaultCriteria : ScreenerCriteria := {}

/-- `ath_info` as produced by `UpbitDataCollector.get_all_time_high`
(collector.py 196-223). -/
structure AthInfo where
  all_time_high : ℚ
  current_price : ℚ
  decline_from_ath : ℚ
deriving DecidableEq

/-- The responses of the market-data collector for one market during one
screening pass.  A `none` models the empty dictionary / empty dataframe /
empty list the collector returns on a failed or insufficient fetch:
* `volumeInfo` — `get_volume_info(market, 7)['avg_volume_krw']`;
* `athInfo` — `get_all_time_high(market)`;
* `volatility` — `calculate_volatility(market, 30)` (a plain float, `0.0`
  on failure);
* `ohlcv` — the rows of `get_ohlcv_dataframe(market, 50)` (used by both the
  CCI and the RSI checks);
* `volumeGrowth` — `get_volume_growth(market, 7)['growth_rate']`;
* `ticker` — `get_ticker_info([market])[0]['trade_price']`. -/
structure Env where
  volumeInfo : Option ℚ
  athInfo : Option AthInfo
  volatility : ℚ
  ohlcv : Option (List Candle)
  volumeGrowth : Option ℚ
  ticker : Option ℚ

/-! ## Criterion evaluators (altcoin_screener.py 127-336) -/

/-- `check_volume_criteria` (127-144): fail with value `0.0` on missing data,
otherwise pass iff the 7-day average volume reaches the floor. -/
def checkVolumeCriteria (c : ScreenerCriteria) (e : Env) : Bool × ℚ :=
  match e.volumeInfo with
  | none => (false, 0)
  | some avgVolume => (decide (c.min_daily_volume_krw ≤ avgVolume), avgVolume)

/-- `check_ath_decline_criteria` (146-165): returns
(pass, all-time high, decline %). -/
def checkAthDeclineCriteria (c : ScreenerCriteria) (e : Env) : Bool × ℚ × ℚ :=
  match e.athInfo with
  | none => (false, 0, 0)
  | some info =>
      (decide (c.min_decline_from_ath ≤ info.decline_from_ath),
       info.all_time_high, info.decline_from_ath)

/-- `check_volatility_criteria` (167-179): pass iff the annualised volatility
lies in the configured band. -/
def checkVolatilityCriteria (c : ScreenerCriteria) (e : Env) : Bool × ℚ :=
  (decide (c.volatility_min ≤ e.volatility) && decide (e.volatility ≤ c.volatility_max),
   e.volatility)

/-- `check_cci_criteria` (181-208): fail with `0.0` on an empty dataframe or a
`NaN` CCI, otherwise pass iff the latest CCI lies in the band. -/
def checkCciCriteria (c : ScreenerCriteria) (e : Env) : Bool × ℚ :=
  match e.ohlcv with
  | none => (false, 0)
  | some candles =>
      match cciLast candles c.cci_period with
      | none => (false, 0)
      | some x => (decide (c.cci_min ≤ x) && decide (x ≤ c.cci_max), x)

/-- `check_rsi_criteria` (210-237): fail with `0.0` on an empty dataframe or a
`NaN` RSI, otherwise pass iff the latest RSI lies in the band. -/
def checkRsiCriteria (c : ScreenerCriteria) (e : Env) : Bool × ℚ :=
  match e.ohlcv with
  | none => (false, 0)
  | some candles =>
      match rsiLast (candles.map (fun cd => cd.close)) c.rsi_period with
      | none => (false, 0)
      | some x => (decide (c.rsi_min ≤ x) && decide (x ≤ c.rsi_max), x)

/-- `check_volume_growth_criteria` (258-275): fail with `0.0` on missing data,
otherwise pass iff the growth rate reaches the floor. -/
def checkVolumeGrowthCriteria (c : ScreenerCriteria) (e : Env) : Bool × ℚ :=
  match e.volumeGrowth with
  | none => (false, 0)
  | some growthRate => (decide (c.volume_growth_min ≤ growthRate), growthRate)

/-! ## Moving-average criterion (altcoin_screener.py 318-336 together with
`get_price_vs_moving_average`, collector.py 399-425)

The collector returns a plain Python dictionary; the evaluator reads it back
with `dict.get` and string keys, so the exact key set matters and the
dictionary is embedded as an association list of string keys. -/

/-- A Python dictionary value (the collector's dictionaries hold floats,
booleans and strings). -/
inductive PVal where
  | num (q : ℚ)
  | bool (b : Bool)
  | str (s : String)
deriving DecidableEq

/-- `d.get(k, dflt)` on an association-list dictionary: the value of the
first (and, keys being unique, only) entry for `k`, else the default. -/
def dictGet (d : List (String × PVal)) (k : String) (dflt : PVal) : PVal :=
  match d with
  | [] => dflt
  | kv :: rest => if kv.1 = k then kv.2 else dictGet rest k dflt

/-- `UpbitDataCollector.get_price_vs_moving_average` (collector.py 399-425):
keys `position` (the % offset of the current price vs the `p`-day moving
average), `ma_value` and `current_price`; all zero when fewer than `p`
candles are available (and on the exception path, which a zero moving
average would trigger through a float division by zero). -/
def priceVsMovingAverage (candles : List Candle) (p : ℕ) : List (String × PVal) :=
  match candles with
  | [] => [(("position"), PVal.num 0), (("ma_value"), PVal.num 0), (("current_price"), PVal.num 0)]
  | c0 :: _ =>
      if candles.length < p then
        [(("position"), PVal.num 0), (("ma_value"), PVal.num 0), (("current_price"), PVal.num 0)]
      else
        let currentPrice := c0.close
        let prices := (candles.take p).map (fun cd => cd.close)
        let maValue := prices.sum / prices.length
        if maValue = 0 then
          [(("position"), PVal.num 0), (("ma_value"), PVal.num 0), (("current_price"), PVal.num 0)]
        else
          let position := (currentPrice - maValue) / maValue * 100
          [(("position"), PVal.num position), (("ma_value"), PVal.num maValue),
           (("current_price"), PVal.num currentPrice)]

/-- `check_moving_average_criteria` (318-336).  It reads the keys `above_ma`
and `position_vs_ma_pct` out of the collector's dictionary with the defaults
`False` and `0`. -/
def checkMovingAverageCriteria (c : ScreenerCriteria) (candles : List Candle) : Bool × ℚ :=
  let maInfo := priceVsMovingAverage candles c.ma_period
  if maInfo.isEmpty then (false, 0)
  else
    let aboveMa : Bool :=
      match dictGet maInfo ("above_ma") (PVal.bool false) with
      | PVal.bool b => b
      | _ => false
    let positionPct : ℚ :=
      match dictGet maInfo ("position_vs_ma_pct") (PVal.num 0) with
      | PVal.num q => q
      | _ => 0
    (if c.require_above_ma then aboveMa else true, positionPct)

/-! ## Composite scorer (`calculate_score`, altcoin_screener.py 338-380)
The float literals `7.5`, `0.3`, `0.015` are the exact rationals
`15/2`, `3/10`, `3/200`. -/

/-- Volume sub-score: `min(15, (volume / min_daily_volume_krw) * 7.5)`. -/
def volumeScore (c : ScreenerCriteria) (volume : ℚ) : ℚ :=
  min 15 (volume / c.min_daily_volume_krw * (15 / 2))

/-- ATH-decline sub-score: `min(15, (ath_decline / 100) * 15)`. -/
def athScore (athDecline : ℚ) : ℚ := min 15 (athDecline / 100 * 15)

/-- Midpoint of the volatility band. -/
def volatilityMid (c : ScreenerCriteria) : ℚ := (c.volatility_min + c.volatility_max) / 2

/-- Volatility sub-score: `max(0, 15 - |volatility - mid| * 0.3)`. -/
def volatilityScore (c : ScreenerCriteria) (volatility : ℚ) : ℚ :=
  max 0 (15 - |volatility - volatilityMid c| * (3 / 10))

/-- CCI sub-score: `max(0, 15 - |cci| * 0.3)`. -/
def cciScore (cci : ℚ) : ℚ := max 0 (15 - |cci| * (3 / 10))

/-- RSI sub-score: `max(0, 15 - |rsi - 50| * 0.3)`. -/
def rsiScore (rsi : ℚ) : ℚ := max 0 (15 - |rsi - 50| * (3 / 10))

/-- Market-cap sub-score: `max(0, 15 - |mc - 10^11| / 10^11 * 10)`. -/
def marketCapScore (marketCap : ℚ) : ℚ :=
  max 0 (15 - |marketCap - 100000000000| / 100000000000 * 10)

/-- Volume-growth sub-score: `max(0, min(10, volume_growth / 100 * 10))`. -/
def volumeGrowthScore (volumeGrowth : ℚ) : ℚ :=
  max 0 (min 10 (volumeGrowth / 100 * 10))

/-- `calculate_score`: the sum of the seven sub-scores. -/
def calculateScore (c : ScreenerCriteria) (volume athDecline volatility cci rsi
    marketCap volumeGrowth : ℚ) : ℚ :=
  volumeScore c volume + athScore athDecline + volatilityScore c volatility +
    cciScore cci + rsiScore rsi + marketCapScore marketCap +
    volumeGrowthScore volumeGrowth

/-- `get_recommendation` (382-391). -/
def getRecommendation (score : ℚ) : String :=
  if 80 ≤ score then "매우 추천"
  else if 60 ≤ score then "추천"
  else if 40 ≤ score then "관심"
  else "검토 필요"

/-- `generate_reason` (393-434): collect matched phrases in source order, keep
the first three, join with a comma. -/
def generateReason (volume athDecline rsi volatility volumeGrowth : ℚ) : String :=
  let reasons : List String :=
    (if 200000000 < volume then ["높은 거래량"]
     else if 100000000 < volume then ["충분한 거래량"] else []) ++
    (if 50 < athDecline then ["큰 상승 여력"]
     else if 30 < athDecline then ["상승 여력"] else []) ++
    (if 30 ≤ rsi ∧ rsi ≤ 70 then ["안정적 RSI (" ++ toString (round rsi) ++ ")"]
     else if rsi < 30 then ["과매도 구간"] else []) ++
    (if volatility < 50 then ["안정적 변동성"]
     else if 100 < volatility then ["높은 변동성"] else []) ++
    (if 50 < volumeGrowth then ["거래량 급증"]
     else if 20 < volumeGrowth then ["거래량 증가"] else [])
  let selected := reasons.take 3
  let sep := ", "
  if selected.isEmpty then "기본 조건 만족" else String.intercalate sep selected

/-! ## A screened candidate (`AltcoinCandidate` dataclass, 70-89) -/

/-- One asset that passed the whole chain. -/
structure AltcoinCandidate where
  symbol : String
  name : String
  current_price : ℚ
  volume_krw : ℚ
  ath : ℚ
  ath_decline : ℚ
  volatility : ℚ
  cci : ℚ
  rsi : ℚ
  market_cap : ℚ
  volume_growth : ℚ
  consecutive_decline : ℕ
  recent_spike : String
  ma_position : ℚ
  score : ℚ
  recommendation : String
  reason : String
deriving DecidableEq

/-! ## Screening orchestrator (`screen_single_market`, 436-533) -/

/-- The numbered steps of `screen_single_market`, in source order.  Steps 6
(market cap), 8 (consecutive decline), 9 (recent spike) and 10 (moving
average) are stubbed to constants in the source; step 11 is the final
ticker fetch. -/
inductive Step where
  | volume
  | athDecline
  | volatility
  | cci
  | rsi
  | marketCap
  | volumeGrowth
  | declineStreak
  | recentSpike
  | maPosition
  | ticker
deriving DecidableEq

/-- The full chain of steps in the order the source executes them. -/
def fullChain : List Step :=
  [Step.volume, Step.athDecline, Step.volatility, Step.cci, Step.rsi,
   Step.marketCap, Step.volumeGrowth, Step.declineStreak, Step.recentSpike,
   Step.maPosition, Step.ticker]

/-- Whether one step of the chain succeeds: the pass bit of the evaluator for
the evaluated criteria, `true` for the four stubbed steps, and availability
of ticker data for the final fetch. -/
def stepPasses (c : ScreenerCriteria) (e : Env) : Step → Bool
  | Step.volume => (checkVolumeCriteria c e).1
  | Step.athDecline => (checkAthDeclineCriteria c e).1
  | Step.volatility => (checkVolatilityCriteria c e).1
  | Step.cci => (checkCciCriteria c e).1
  | Step.rsi => (checkRsiCriteria c e).1
  | Step.marketCap => true
  | Step.volumeGrowth => (checkVolumeGrowthCriteria c e).1
  | Step.declineStreak => true
  | Step.recentSpike => true
  | Step.maPosition => true
  | Step.ticker => e.ticker.isSome

/-- `screen_single_market`, instrumented with the list of chain steps the
source executes before returning (the trace).  Mirrors the source line by
line: each failed check logs and returns `None`; steps 6, 8, 9 and 10 assign
the stub constants `(True, 50000000000)`, `(True, 2)`, `(True, 'none')`,
`(True, 5.0)`; step 11 returns `None` when the ticker fetch comes back
empty; otherwise the candidate is built. -/
def screenSteps (c : ScreenerCriteria) (market : String) (e : Env) :
    Option AltcoinCandidate × List Step :=
  match checkVolumeCriteria c e with
  | (false, _) => (none, [Step.volume])
  | (true, volume) =>
    match checkAthDeclineCriteria c e with
    | (false, _, _) => (none, [Step.volume, Step.athDecline])
    | (true, ath, athDecline) =>
      match checkVolatilityCriteria c e with
      | (false, _) => (none, [Step.volume, Step.athDecline, Step.volatility])
      | (true, volatility) =>
        match checkCciCriteria c e with
        | (false, _) =>
            (none, [Step.volume, Step.athDecline, Step.volatility, Step.cci])
        | (true, cci) =>
          match checkRsiCriteria c e with
          | (false, _) =>
              (none, [Step.volume, Step.athDecline, Step.volatility, Step.cci,
                      Step.rsi])
          | (true, rsi) =>
            let marketCap : ℚ := 50000000000
            match checkVolumeGrowthCriteria c e with
            | (false, _) =>
                (none, [Step.volume, Step.athDecline, Step.volatility, Step.cci,
                        Step.rsi, Step.marketCap, Step.volumeGrowth])
            | (true, volumeGrowth) =>
              let consecutiveDecline : ℕ := 2
              let recentSpike := "none"
              let maPosition : ℚ := 5
              match e.ticker with
              | none => (none, fullChain)
              | some currentPrice =>
                let score := calculateScore c volume athDecline volatility cci
                  rsi marketCap volumeGrowth
                let name := (market.replace ("KRW-") ("")).replace ("-") ("")
                (some { symbol := market
                        name := name
                        current_price := currentPrice
                        volume_krw := volume
                        ath := ath
                        ath_decline := athDecline
                        volatility := volatility
                        cci := cci
                        rsi := rsi
                        market_cap := marketCap
                        volume_growth := volumeGrowth
                        consecutive_decline := consecutiveDecline
                        recent_spike := recentSpike
                        ma_position := maPosition
                        score := score
                        recommendation := getRecommendation score
                        reason := generateReason volume athDecline rsi
                          volatility volumeGrowth },
                 fullChain)

/-- `screen_single_market` proper: the candidate (or `None`). -/
def screenSingleMarket (c : ScreenerCriteria) (market : String) (e : Env) :
    Option AltcoinCandidate :=
  (screenSteps c market e).1

/-! ## Ranking (`screen_all_markets`, 535-570)

`candidates.sort(key=lambda x: x.score, reverse=True)` is Python's stable
sort run descending on the score; a stable sort's output is determined by
the comparator, so it is embedded as the (stable) insertion sort that puts a
candidate before the first earlier-sorted candidate of less-or-equal score. -/

/-- Stable descending insertion of one candidate. -/
def insertDesc (x : AltcoinCandidate) : List AltcoinCandidate → List AltcoinCandidate
  | [] => [x]
  | y :: ys => if y.score ≤ x.score then x :: y :: ys else y :: insertDesc x ys

/-- Stable sort by score, descending. -/
def sortByScoreDesc : List AltcoinCandidate → List AltcoinCandidate
  | [] => []
  | x :: xs => insertDesc x (sortByScoreDesc xs)

/-- `screen_all_markets` over a given enumeration of markets with their
collector responses: screen each market in order, keep the candidates,
sort by score descending. -/
def screenAllMarkets (c : ScreenerCriteria) (markets : List (String × Env)) :
    List AltcoinCandidate :=
  sortByScoreDesc (markets.filterMap (fun me => screenSingleMarket c me.1 me.2))

/-! ## Concrete inputs used by the theorems below -/

/-- A degenerate candle whose four prices coincide. -/
def flatCandle (q : ℚ) : Candle :=
  { opening := q, high := q, low := q, close := q, volume := 1 }

/-- A constant-price series: 20 identical candles. -/
def constCandles : List Candle := List.replicate 20 (flatCandle 100)

/-- A 21-point close series engineered so that the trailing 20-window CCI is
exactly `10` and the trailing 14-window RSI is exactly `55`. -/
def closesAcc : List ℚ :=
  [100] ++ List.replicate 5 (39467 / 395) ++ [100, 111] ++ List.replicate 13 102

/-- The candle series over `closesAcc`. -/
def candlesAcc : List Candle := closesAcc.map flatCandle

/-- Collector responses where all six evaluated criteria pass against the
default configuration but the final ticker fetch returns no data. -/
def envPassNoTicker : Env :=
  { volumeInfo := some 200000000
    athInfo := some { all_time_high := 1000, current_price := 500, decline_from_ath := 50 }
    volatility := 60
    ohlcv := some candlesAcc
    volumeGrowth := some 60
    ticker := none }

/-- Collector responses realising the spec scenario of claim C3: volume
`5·10^9`, ATH decline `40`, volatility `60`, CCI `10`, RSI `55`, volume
growth `30`. -/
def envScenario : Env :=
  { volumeInfo := some 5000000000
    athInfo := some { all_time_high := 1000, current_price := 600, decline_from_ath := 40 }
    volatility := 60
    ohlcv := some candlesAcc
    volumeGrowth := some 30
    ticker := some 600 }

/-- Collector responses with an average volume of `5·10^7`, below the default
`10^8` floor. -/
def envLowVolume : Env :=
  { volumeInfo := some 50000000
    athInfo := none
    volatility := 0
    ohlcv := none
    volumeGrowth := none
    ticker := none }

/-- Collector responses where every fetch failed. -/
def envNoData : Env :=
  { volumeInfo := none
    athInfo := none
    volatility := 0
    ohlcv := none
    volumeGrowth := none
    ticker := none }

/-- Collector responses whose OHLCV data is the constant-price series. -/
def envFlat : Env :=
  { volumeInfo := none
    athInfo := none
    volatility := 0
    ohlcv := some constCandles
    volumeGrowth := none
    ticker := none }

/-- A candle series whose current price (`110`) sits above its 20-day moving
average (`100.5`). -/
def maCandles : List Candle := flatCandle 110 :: List.replicate 20 (flatCandle 100)

/-! ## Helper lemmas -/

lemma gainsSeries_length (l : List ℚ) : (gainsSeries l).length = l.length := by
  cases l with
  | nil => rfl
  | cons a t => simp [gainsSeries, diffs]

lemma lossesSeries_length (l : List ℚ) : (lossesSeries l).length = l.length := by
  cases l with
  | nil => rfl
  | cons a t => simp [lossesSeries, diffs]

lemma mem_gainsSeries_nonneg (l : List ℚ) : ∀ x ∈ gainsSeries l, 0 ≤ x := by
  cases l with
  | nil => simp [gainsSeries]
  | cons a t =>
      intro x hx
      simp only [gainsSeries, List.mem_cons, List.mem_map] at hx
      rcases hx with rfl | ⟨d, _, rfl⟩
      · exact le_refl 0
      · split
        · exact le_of_lt (by assumption)
        · exact le_refl 0

lemma mem_lossesSeries_nonneg (l : List ℚ) : ∀ x ∈ lossesSeries l, 0 ≤ x := by
  cases l with
  | nil => simp [lossesSeries]
  | cons a t =>
      intro x hx
      simp only [lossesSeries, List.mem_cons, List.mem_map] at hx
      rcases hx with rfl | ⟨d, _, rfl⟩
      · exact le_refl 0
      · split
        · exact neg_nonneg.mpr (le_of_lt (by assumption))
        · exact le_refl 0

lemma rollMeanLast_eq (p : ℕ) (xs : List ℚ) (hp : 0 < p) (hlen : p ≤ xs.length) :
    rollMeanLast p xs = some ((lastWindow p xs).sum / p) := by
  simp [rollMeanLast, hp, hlen]

lemma rollMeanLast_nonneg (p : ℕ) (xs : List ℚ) (m : ℚ)
    (h : rollMeanLast p xs = some m) (hx : ∀ x ∈ xs, 0 ≤ x) : 0 ≤ m := by
  unfold rollMeanLast at h
  split at h
  · have hm : m = (lastWindow p xs).sum / p := by
      injection h with h
      exact h.symm
    subst hm
    apply div_nonneg _ (Nat.cast_nonneg p)
    apply List.sum_nonneg
    intro x hmem
    exact hx x (List.drop_subset _ _ hmem)
  · exact absurd h (by simp)

lemma perm_insertDesc (x : AltcoinCandidate) (l : List AltcoinCandidate) :
    List.Perm (insertDesc x l) (x :: l) := by
  induction l with
  | nil => exact List.Perm.refl _
  | cons y ys ih =>
      unfold insertDesc
      split
      · exact List.Perm.refl _
      · exact List.Perm.trans (List.Perm.cons y ih) (List.Perm.swap x y ys)

lemma perm_sortByScoreDesc (l : List AltcoinCandidate) :
    List.Perm (sortByScoreDesc l) l := by
  induction l with
  | nil => exact List.Perm.refl _
  | cons x xs ih =>
      exact List.Perm.trans (perm_insertDesc x (sortByScoreDesc xs)) (List.Perm.cons x ih)

lemma sorted_insertDesc (x : AltcoinCandidate) (l : List AltcoinCandidate)
    (h : List.Sorted (fun a b => b.score ≤ a.score) l) :
    List.Sorted (fun a b => b.score ≤ a.score) (insertDesc x l) := by
  induction l with
  | nil => simp [insertDesc]
  | cons y ys ih =>
      rw [List.sorted_cons] at h
      obtain ⟨hy, hys⟩ := h
      unfold insertDesc
      split
      · rw [List.sorted_cons]
        refine ⟨?_, by rw [List.sorted_cons]; exact ⟨hy, hys⟩⟩
        intro b hb
        rcases List.mem_cons.mp hb with rfl | hb
        · assumption
        · exact le_trans (hy b hb) (by assumption)
      · rw [List.sorted_cons]
        refine ⟨?_, ih hys⟩
        intro b hb
        rcases List.mem_cons.mp ((perm_insertDesc x ys).mem_iff.mp hb) with rfl | hb
        · exact le_of_lt (lt_of_not_le (by assumption))
        · exact hy b hb

lemma sorted_sortByScoreDesc (l : List AltcoinCandidate) :
    List.Sorted (fun a b => b.score ≤ a.score) (sortByScoreDesc l) := by
  induction l with
  | nil => simp [sortByScoreDesc]
  | cons x xs ih => exact sorted_insertDesc x (sortByScoreDesc xs) ih

lemma filter_score_insertDesc (s : ℚ) (x : AltcoinCandidate)
    (l : List AltcoinCandidate) :
    (insertDesc x l).filter (fun cd => decide (cd.score = s)) =
      if x.score = s then x :: l.filter (fun cd => decide (cd.score = s))
      else l.filter (fun cd => decide (cd.score = s)) := by
  induction l with
  | nil =>
      by_cases hx : x.score = s <;> simp [insertDesc, List.filter, hx]
  | cons y ys ih =>
      unfold insertDesc
      by_cases hcmp : y.score ≤ x.score
      · rw [if_pos hcmp]
        by_cases hx : x.score = s <;> simp [List.filter_cons, hx]
      · rw [if_neg hcmp]
        by_cases hx : x.score = s
        · have hy : ¬(y.score = s) := by
            intro hy
            exact hcmp (le_of_eq (hy.trans hx.symm))
          simp [List.filter_cons, hx, hy, ih]
        · simp [List.filter_cons, hx, ih]

lemma filter_score_sortByScoreDesc (s : ℚ) (l : List AltcoinCandidate) :
    (sortByScoreDesc l).filter (fun cd => decide (cd.score = s)) =
      l.filter (fun cd => decide (cd.score = s)) := by
  induction l with
  | nil => rfl
  | cons x xs ih =>
      show (insertDesc x (sortByScoreDesc xs)).filter _ = _
      rw [filter_score_insertDesc]
      by_cases hx : x.score = s <;> simp [List.filter_cons, hx, ih]

/-! ## Claim C4 — RSI boundedness -/

/-- Claim C4, counterexample: on a constant-price series of length
`period + 1` the trailing window has no negative delta (zero average loss),
yet `_calculate_rsi_manual` produces `0/0 = NaN` (modelled `none`) rather
than `100` — the computed RSI is neither `100` nor inside `[0, 100]`. -/
theorem claim4_counterexample :
    (List.replicate 15 (100 : ℚ)).length = 14 + 1 ∧
    avgLossLast (List.replicate 15 (100 : ℚ)) 14 = some 0 ∧
    rsiLast (List.replicate 15 (100 : ℚ)) 14 = none := by
  norm_num [rsiLast, avgGainLast, avgLossLast, rollMeanLast, lastWindow,
    gainsSeries, lossesSeries, diffs, List.replicate]

/-- Claim C4 (amended): for every price series of length at least
`period + 1` whose trailing window is not entirely flat (i.e. average gain
and average loss are not both zero), the computed RSI is defined and lies in
`[0, 100]`, and a zero average loss yields exactly `100`; the all-flat
window is the one exception, yielding `NaN`. -/
theorem claim4_rsi_bounded (prices : List ℚ) (period : ℕ)
    (hp : 0 < period) (hlen : period + 1 ≤ prices.length)
    (hnz : ¬(avgGainLast prices period = some 0 ∧
             avgLossLast prices period = some 0)) :
    (rsiLast prices period).isSome = true ∧
    0 ≤ (rsiLast prices period).getD 0 ∧
    (rsiLast prices period).getD 0 ≤ 100 ∧
    (avgLossLast prices period = some 0 → rsiLast prices period = some 100) := by
  have hlg : period ≤ (gainsSeries prices).length := by
    rw [gainsSeries_length]; omega
  have hll : period ≤ (lossesSeries prices).length := by
    rw [lossesSeries_length]; omega
  have hg : avgGainLast prices period =
      some ((lastWindow period (gainsSeries prices)).sum / period) :=
    rollMeanLast_eq _ _ hp hlg
  have hl : avgLossLast prices period =
      some ((lastWindow period (lossesSeries prices)).sum / period) :=
    rollMeanLast_eq _ _ hp hll
  set g := (lastWindow period (gainsSeries prices)).sum / (period : ℚ) with hgdef
  set l := (lastWindow period (lossesSeries prices)).sum / (period : ℚ) with hldef
  have hg0 : 0 ≤ g := rollMeanLast_nonneg _ _ _ hg (mem_gainsSeries_nonneg prices)
  have hl0 : 0 ≤ l := rollMeanLast_nonneg _ _ _ hl (mem_lossesSeries_nonneg prices)
  by_cases hlz : l = 0
  · have hgz : g ≠ 0 := by
      intro hgz
      exact hnz ⟨by rw [hg, hgz], by rw [hl, hlz]⟩
    have hrsi : rsiLast prices period = some 100 := by
      rw [rsiLast, hg, hl]
      simp [hlz, hgz]
    refine ⟨by rw [hrsi]; rfl, ?_, ?_, fun _ => hrsi⟩
    · rw [hrsi]; norm_num
    · rw [hrsi]; norm_num
  · have hlpos : 0 < l := lt_of_le_of_ne hl0 (Ne.symm hlz)
    have hq : 0 ≤ g / l := div_nonneg hg0 hl0
    have hden : (0 : ℚ) < 1 + g / l := by linarith
    have hfrac1 : 100 / (1 + g / l) ≤ 100 := div_le_self (by norm_num) (by linarith)
    have hfrac0 : 0 < 100 / (1 + g / l) := by positivity
    have hrsi : rsiLast prices period = some (100 - 100 / (1 + g / l)) := by
      rw [rsiLast, hg, hl]
      simp [hlz]
    refine ⟨by rw [hrsi]; rfl, ?_, ?_, ?_⟩
    · rw [hrsi]
      show (0 : ℚ) ≤ 100 - 100 / (1 + g / l)
      linarith
    · rw [hrsi]
      show (100 : ℚ) - 100 / (1 + g / l) ≤ 100
      linarith
    · intro hcontra
      rw [hl] at hcontra
      injection hcontra with hcontra
      exact absurd hcontra hlz

/-- Claim C4, witness: the series `[100, 101, 100]` with period `2` has a
mixed window; the theorem yields a defined RSI in `[0, 100]`. -/
theorem claim4_witness :
    (rsiLast [100, 101, 100] 2).isSome = true ∧
    0 ≤ (rsiLast [100, 101, 100] 2).getD 0 ∧
    (rsiLast [100, 101, 100] 2).getD 0 ≤ 100 ∧
    (avgLossLast [100, 101, 100] 2 = some 0 → rsiLast [100, 101, 100] 2 = some 100) :=
  claim4_rsi_bounded [100, 101, 100] 2 (by norm_num) (by norm_num)
    (by norm_num [avgGainLast, avgLossLast, rollMeanLast, lastWindow,
      gainsSeries, lossesSeries, diffs])

/-! ## Claim C5 — CCI zero-mean-deviation guard -/

/-- Claim C5: whenever the trailing mean absolute deviation of the typical
price is zero (e.g. on a constant-price series), the manual CCI computation
yields `NaN` (`none`), the CCI criterion evaluator catches it with
`pd.isna` and returns fail with value `0.0`, and the asset is rejected —
so no NaN or infinite CCI value ever reaches `calculate_score`. -/
theorem claim5_cci_zero_mad_guard (c : ScreenerCriteria) (market : String)
    (e : Env) (candles : List Candle) (hdf : e.ohlcv = some candles)
    (hmad : madLast candles c.cci_period = some 0) :
    cciLast candles c.cci_period = none ∧
    checkCciCriteria c e = (false, 0) ∧
    screenSingleMarket c market e = none := by
  have hcond : 0 < c.cci_period ∧ c.cci_period ≤ candles.length := by
    by_contra hcond
    rw [madLast, if_neg hcond] at hmad
    exact absurd hmad (by simp)
  have hmadval : madLast candles c.cci_period = some 0 := hmad
  have hne : candles ≠ [] := by
    intro hnil
    rw [hnil] at hcond
    simp at hcond
    omega
  obtain ⟨lastC, hlastC⟩ := Option.isSome_iff_exists.mp
    (List.getLast?_isSome.mpr hne)
  have hsma : smaLast candles c.cci_period =
      some ((lastWindow c.cci_period (candles.map typicalPrice)).sum / c.cci_period) := by
    apply rollMeanLast_eq _ _ hcond.1
    rw [List.length_map]
    exact hcond.2
  have hcci : cciLast candles c.cci_period = none := by
    rw [cciLast, hlastC, hsma, hmadval]
    simp
  have hcheck : checkCciCriteria c e = (false, 0) := by
    simp only [checkCciCriteria, hdf, hcci]
  refine ⟨hcci, hcheck, ?_⟩
  rw [screenSingleMarket, screenSteps]
  rcases hv : checkVolumeCriteria c e with ⟨bv, vv⟩
  cases bv
  · simp
  · rcases ha : checkAthDeclineCriteria c e with ⟨ba, av, dv⟩
    cases ba
    · simp
    · rcases ho : checkVolatilityCriteria c e with ⟨bo, ov⟩
      cases bo
      · simp
      · rw [hcheck]

/-- Claim C5, witness: the constant-price series triggers the zero
mean-deviation case and the asset is rejected. -/
theorem claim5_witness :
    cciLast constCandles defaultCriteria.cci_period = none ∧
    checkCciCriteria defaultCriteria envFlat = (false, 0) ∧
    screenSingleMarket defaultCriteria ("KRW-AAA") envFlat = none :=
  claim5_cci_zero_mad_guard defaultCriteria ("KRW-AAA") envFlat constCandles
    rfl (by norm_num [madLast, tpWindow, lastWindow, typicalPrice, constCandles,
      flatCandle, defaultCriteria, List.replicate])

/-! ## Claim C9 — evaluators degrade to fail on missing data -/

/-- Criteria identical to the defaults except that the volatility band is
widened to `[0, 150]` (a band that contains the collector's `0.0` failure
value). -/
def zeroMinVolCriteria : ScreenerCriteria := { volatility_min := 0 }

/-- Claim C9, counterexample: the volatility evaluator has no missing-data
branch of its own — `calculate_volatility` returns `0.0` on a failed or
empty fetch and `check_volatility_criteria` merely band-checks that value.
Against a configuration whose volatility band contains `0`, a run where
every fetch failed makes the volatility evaluator return **pass** (with the
uncomputable value `0.0`), so not every criterion evaluator that cannot
compute its measured value returns fail. -/
theorem claim9_counterexample :
    zeroMinVolCriteria.volatility_min = 0 ∧
    envNoData.volatility = 0 ∧
    checkVolatilityCriteria zeroMinVolCriteria envNoData = (true, 0) := by
  norm_num [checkVolatilityCriteria, zeroMinVolCriteria, envNoData]

/-- Claim C9 (amended): every criterion evaluator with an explicit
missing-data branch — volume, ATH decline, CCI, RSI, volume growth — returns
fail together with a zero measured value when the collector data is missing
or the indicator comes back `NaN`, instead of raising; the volatility
evaluator only band-checks the collector's `0.0` failure value, so a failed
fetch degrades to fail-with-zero exactly when the configured band excludes
`0`, as the default band `[10, 150]` does. -/
theorem claim9_missing_data_fails (c : ScreenerCriteria) (e : Env) :
    (e.volumeInfo = none → checkVolumeCriteria c e = (false, 0)) ∧
    (e.athInfo = none → checkAthDeclineCriteria c e = (false, 0, 0)) ∧
    (e.ohlcv = none →
      checkCciCriteria c e = (false, 0) ∧ checkRsiCriteria c e = (false, 0)) ∧
    (∀ candles, e.ohlcv = some candles →
      cciLast candles c.cci_period = none → checkCciCriteria c e = (false, 0)) ∧
    (∀ candles, e.ohlcv = some candles →
      rsiLast (candles.map (fun cd => cd.close)) c.rsi_period = none →
      checkRsiCriteria c e = (false, 0)) ∧
    (e.volumeGrowth = none → checkVolumeGrowthCriteria c e = (false, 0)) ∧
    (e.volatility = 0 → 0 < c.volatility_min →
      checkVolatilityCriteria c e = (false, 0)) := by
  refine ⟨?_, ?_, ?_, ?_, ?_, ?_, ?_⟩
  · intro h; rw [checkVolumeCriteria, h]
  · intro h; rw [checkAthDeclineCriteria, h]
  · intro h
    exact ⟨by simp only [checkCciCriteria, h], by simp only [checkRsiCriteria, h]⟩
  · intro candles h1 h2; simp only [checkCciCriteria, h1, h2]
  · intro candles h1 h2; simp only [checkRsiCriteria, h1, h2]
  · intro h; rw [checkVolumeGrowthCriteria, h]
  · intro h1 h2
    rw [checkVolatilityCriteria, h1]
    simp [not_le.mpr h2]

/-- Claim C9, witness: a run where every fetch failed (under the default
criteria, whose volatility band excludes `0`), and a run whose OHLCV series
makes both indicators `NaN`. -/
theorem claim9_witness :
    checkVolumeCriteria defaultCriteria envNoData = (false, 0) ∧
    checkAthDeclineCriteria defaultCriteria envNoData = (false, 0, 0) ∧
    checkCciCriteria defaultCriteria envNoData = (false, 0) ∧
    checkRsiCriteria defaultCriteria envNoData = (false, 0) ∧
    checkCciCriteria defaultCriteria envFlat = (false, 0) ∧
    checkRsiCriteria defaultCriteria envFlat = (false, 0) ∧
    checkVolumeGrowthCriteria defaultCriteria envNoData = (false, 0) ∧
    checkVolatilityCriteria defaultCriteria envNoData = (false, 0) :=
  ⟨(claim9_missing_data_fails defaultCriteria envNoData).1 rfl,
   (claim9_missing_data_fails defaultCriteria envNoData).2.1 rfl,
   ((claim9_missing_data_fails defaultCriteria envNoData).2.2.1 rfl).1,
   ((claim9_missing_data_fails defaultCriteria envNoData).2.2.1 rfl).2,
   (claim9_missing_data_fails defaultCriteria envFlat).2.2.2.1 constCandles
     rfl (by norm_num [cciLast, smaLast, madLast, rollMeanLast, lastWindow,
       tpWindow, typicalPrice, constCandles, flatCandle, defaultCriteria,
       List.replicate, List.getLast?]),
   (claim9_missing_data_fails defaultCriteria envFlat).2.2.2.2.1 constCandles
     rfl (by norm_num [rsiLast, avgGainLast, avgLossLast, rollMeanLast,
       lastWindow, gainsSeries, lossesSeries, diffs, constCandles, flatCandle,
       defaultCriteria, List.replicate]),
   (claim9_missing_data_fails defaultCriteria envNoData).2.2.2.2.2.1 rfl,
   (claim9_missing_data_fails defaultCriteria envNoData).2.2.2.2.2.2 rfl
     (by norm_num [defaultCriteria])⟩

/-! ## Claim C8 — sub-score monotonicity -/

/-- Claim C8: each per-dimension sub-score of `calculate_score` is
monotonically non-decreasing in that dimension's goodness, holding the
others fixed — more volume, more ATH decline and more volume growth never
decrease their sub-scores, and moving volatility, CCI, RSI or market cap
closer to its optimum never decreases its sub-score. -/
theorem claim8_subscore_monotone (c : ScreenerCriteria)
    (hc : 0 < c.min_daily_volume_krw) :
    (∀ v v', v ≤ v' → volumeScore c v ≤ volumeScore c v') ∧
    (∀ a a', a ≤ a' → athScore a ≤ athScore a') ∧
    (∀ g g', g ≤ g' → volumeGrowthScore g ≤ volumeGrowthScore g') ∧
    (∀ x x', |x' - volatilityMid c| ≤ |x - volatilityMid c| →
      volatilityScore c x ≤ volatilityScore c x') ∧
    (∀ x x', |x'| ≤ |x| → cciScore x ≤ cciScore x') ∧
    (∀ x x', |x' - 50| ≤ |x - 50| → rsiScore x ≤ rsiScore x') ∧
    (∀ x x', |x' - 100000000000| ≤ |x - 100000000000| →
      marketCapScore x ≤ marketCapScore x') := by
  refine ⟨?_, ?_, ?_, ?_, ?_, ?_, ?_⟩
  · intro v v' h
    apply min_le_min le_rfl
    have hdiv : v / c.min_daily_volume_krw ≤ v' / c.min_daily_volume_krw :=
      (div_le_div_iff_of_pos_right hc).mpr h
    nlinarith
  · intro a a' h
    apply min_le_min le_rfl
    linarith
  · intro g g' h
    apply max_le_max le_rfl
    apply min_le_min le_rfl
    linarith
  · intro x x' h
    apply max_le_max le_rfl
    linarith
  · intro x x' h
    apply max_le_max le_rfl
    linarith
  · intro x x' h
    apply max_le_max le_rfl
    linarith
  · intro x x' h
    apply max_le_max le_rfl
    linarith

/-- Claim C8, witness: concrete instances of each monotonicity statement
against the default criteria. -/
theorem claim8_witness :
    volumeScore defaultCriteria 100 ≤ volumeScore defaultCriteria 200 ∧
    athScore 10 ≤ athScore 20 ∧
    volumeGrowthScore 10 ≤ volumeGrowthScore 20 ∧
    volatilityScore defaultCriteria 100 ≤ volatilityScore defaultCriteria 90 ∧
    cciScore 50 ≤ cciScore 10 ∧
    rsiScore 70 ≤ rsiScore 55 ∧
    marketCapScore 200000000000 ≤ marketCapScore 110000000000 :=
  have h := claim8_subscore_monotone defaultCriteria (by norm_num [defaultCriteria])
  ⟨h.1 100 200 (by norm_num),
   h.2.1 10 20 (by norm_num),
   h.2.2.1 10 20 (by norm_num),
   h.2.2.2.1 100 90 (by norm_num [volatilityMid, defaultCriteria]),
   h.2.2.2.2.1 50 10 (by norm_num),
   h.2.2.2.2.2.1 70 55 (by norm_num),
   h.2.2.2.2.2.2 200000000000 110000000000 (by norm_num)⟩

/-! ## Claim C10 — composite-score bounds -/

/-- Claim C10, counterexample: the volume sub-score is `min(15, v/floor*7.5)`
with no lower clamp, so a negative measured volume drives the composite
score below `0` — the score does not lie in `[0, 100]` for every
combination of inputs. -/
theorem claim10_counterexample :
    calculateScore defaultCriteria (-10000000000) 0 0 0 0 0 0 < 0 := by
  norm_num [calculateScore, volumeScore, athScore, volatilityScore, cciScore,
    rsiScore, marketCapScore, volumeGrowthScore, volatilityMid, defaultCriteria,
    abs_eq_max_neg, max_def]

/-- Claim C10 (amended): the composite score never exceeds `100` (the seven
sub-scores are capped at `15, 15, 15, 15, 15, 15, 10`); five sub-scores are
also floored at `0`, but the volume and ATH sub-scores are not — they are
non-negative only when their measured inputs are, in which case the score
lies in `[0, 100]`. -/
theorem claim10_score_bounds (c : ScreenerCriteria)
    (hc : 0 < c.min_daily_volume_krw)
    (volume athDecline volatility cci rsi marketCap volumeGrowth : ℚ) :
    calculateScore c volume athDecline volatility cci rsi marketCap volumeGrowth ≤ 100 ∧
    (0 ≤ volume → 0 ≤ athDecline →
      0 ≤ calculateScore c volume athDecline volatility cci rsi marketCap volumeGrowth) := by
  have hv1 : volumeScore c volume ≤ 15 := min_le_left _ _
  have ha1 : athScore athDecline ≤ 15 := min_le_left _ _
  have habs1 : 0 ≤ |volatility - volatilityMid c| := abs_nonneg _
  have hvo1 : volatilityScore c volatility ≤ 15 :=
    max_le (by norm_num) (by unfold volatilityMid at habs1 ⊢; linarith)
  have habs2 : 0 ≤ |cci| := abs_nonneg _
  have hc1 : cciScore cci ≤ 15 := max_le (by norm_num) (by linarith)
  have habs3 : 0 ≤ |rsi - 50| := abs_nonneg _
  have hr1 : rsiScore rsi ≤ 15 := max_le (by norm_num) (by linarith)
  have habs4 : 0 ≤ |marketCap - 100000000000| := abs_nonneg _
  have hm1 : marketCapScore marketCap ≤ 15 := max_le (by norm_num) (by linarith)
  have hg1 : volumeGrowthScore volumeGrowth ≤ 10 :=
    max_le (by norm_num) (min_le_left _ _)
  constructor
  · unfold calculateScore
    linarith
  · intro hvol hath
    have hv0 : 0 ≤ volumeScore c volume := by
      apply le_min (by norm_num)
      have := div_nonneg hvol (le_of_lt hc)
      nlinarith
    have ha0 : 0 ≤ athScore athDecline := by
      apply le_min (by norm_num)
      linarith
    have hvo0 : 0 ≤ volatilityScore c volatility := le_max_left _ _
    have hc0 : 0 ≤ cciScore cci := le_max_left _ _
    have hr0 : 0 ≤ rsiScore rsi := le_max_left _ _
    have hm0 : 0 ≤ marketCapScore marketCap := le_max_left _ _
    have hg0 : 0 ≤ volumeGrowthScore volumeGrowth := le_max_left _ _
    unfold calculateScore
    linarith

/-- Claim C10, witness: the bounds at a concrete all-pass measurement. -/
theorem claim10_witness :
    calculateScore defaultCriteria 200000000 50 60 0 50 50000000000 60 ≤ 100 ∧
    0 ≤ calculateScore defaultCriteria 200000000 50 60 0 50 50000000000 60 :=
  ⟨(claim10_score_bounds defaultCriteria (by norm_num [defaultCriteria])
      200000000 50 60 0 50 50000000000 60).1,
   (claim10_score_bounds defaultCriteria (by norm_num [defaultCriteria])
      200000000 50 60 0 50 50000000000 60).2 (by norm_num) (by norm_num)⟩

/-! ## Claim C2 — fixed evaluation order and short-circuit -/

/-- Claim C2: the chain of `screen_single_market` always executes a prefix of
the fixed step order (volume, ATH decline, volatility, CCI, RSI, market cap,
volume growth, decline streak, spike, MA position, ticker fetch): exactly the
steps up to and including the first failing one.  In particular an asset
whose average volume misses the floor is rejected at the volume step with no
later step executed. -/
theorem claim2_fixed_order_short_circuit (c : ScreenerCriteria) (market : String)
    (e : Env) :
    (screenSteps c market e).2 =
      fullChain.take ((fullChain.takeWhile (stepPasses c e)).length + 1) ∧
    ((checkVolumeCriteria c e).1 = false →
      screenSteps c market e = (none, [Step.volume])) := by
  constructor
  · rcases hv : checkVolumeCriteria c e with ⟨bv, vv⟩
    rcases ha : checkAthDeclineCriteria c e with ⟨ba, av, dv⟩
    rcases ho : checkVolatilityCriteria c e with ⟨bo, ov⟩
    rcases hcc : checkCciCriteria c e with ⟨bc, cv⟩
    rcases hr : checkRsiCriteria c e with ⟨br, rv⟩
    rcases hg : checkVolumeGrowthCriteria c e with ⟨bg, gv⟩
    rcases ht : e.ticker with _ | tp <;>
      cases bv <;> cases ba <;> cases bo <;> cases bc <;> cases br <;> cases bg <;>
        simp [screenSteps, stepPasses, fullChain, hv, ha, ho, hcc, hr, hg, ht,
          List.takeWhile]
  · intro hfail
    rcases hv : checkVolumeCriteria c e with ⟨bv, vv⟩
    rw [hv] at hfail
    simp only [Prod.fst] at hfail
    subst hfail
    simp [screenSteps, hv]

/-- Claim C2, witness: average volume `5·10^7` sits below the default `10^8`
floor, so the chain stops at the volume step with nothing after it, and the
asset yields no candidate. -/
theorem claim2_witness :
    screenSteps defaultCriteria ("KRW-AAA") envLowVolume = (none, [Step.volume]) :=
  (claim2_fixed_order_short_circuit defaultCriteria ("KRW-AAA") envLowVolume).2
    (by norm_num [checkVolumeCriteria, envLowVolume, defaultCriteria])

/-! ## Claim C1 — candidate iff all evaluators pass -/

/-- Claim C1, counterexample: a market for which all six evaluated criteria
pass but the final ticker fetch returns no data produces no candidate — a
candidate is not produced whenever every enabled criterion evaluator
passes, contradicting the claimed equivalence. -/
theorem claim1_counterexample :
    (checkVolumeCriteria defaultCriteria envPassNoTicker).1 = true ∧
    (checkAthDeclineCriteria defaultCriteria envPassNoTicker).1 = true ∧
    (checkVolatilityCriteria defaultCriteria envPassNoTicker).1 = true ∧
    (checkCciCriteria defaultCriteria envPassNoTicker).1 = true ∧
    (checkRsiCriteria defaultCriteria envPassNoTicker).1 = true ∧
    (checkVolumeGrowthCriteria defaultCriteria envPassNoTicker).1 = true ∧
    screenAllMarkets defaultCriteria [(("KRW-AAA"), envPassNoTicker)] = [] := by
  norm_num [checkVolumeCriteria, checkAthDeclineCriteria, checkVolatilityCriteria,
    checkCciCriteria, checkRsiCriteria, checkVolumeGrowthCriteria, screenAllMarkets,
    screenSingleMarket, screenSteps, sortByScoreDesc, defaultCriteria, envPassNoTicker,
    cciLast, rsiLast, avgGainLast, avgLossLast, gainsSeries, lossesSeries, diffs,
    smaLast, madLast, rollMeanLast, lastWindow, tpWindow, typicalPrice,
    candlesAcc, closesAcc, flatCandle, List.replicate, List.getLast?,
    abs_eq_max_neg, max_def]

/-- Claim C1 (amended): a candidate for an asset appears in the screening
output iff every enabled criterion evaluator (volume, ATH decline,
volatility, CCI, RSI, volume growth — market cap, decline streak, spike and
MA position being stubbed to pass) passed **and** the final ticker-info
fetch returned a price; an asset failing any enabled evaluator is never
surfaced. -/
theorem claim1_candidate_iff (c : ScreenerCriteria) (market : String) (e : Env) :
    ((screenSingleMarket c market e).isSome = true ↔
      ((checkVolumeCriteria c e).1 = true ∧
       (checkAthDeclineCriteria c e).1 = true ∧
       (checkVolatilityCriteria c e).1 = true ∧
       (checkCciCriteria c e).1 = true ∧
       (checkRsiCriteria c e).1 = true ∧
       (checkVolumeGrowthCriteria c e).1 = true ∧
       e.ticker.isSome = true)) ∧
    ∀ (markets : List (String × Env)) (cand : AltcoinCandidate),
      cand ∈ screenAllMarkets c markets ↔
        ∃ me ∈ markets, screenSingleMarket c me.1 me.2 = some cand := by
  constructor
  · rcases hv : checkVolumeCriteria c e with ⟨bv, vv⟩
    rcases ha : checkAthDeclineCriteria c e with ⟨ba, av, dv⟩
    rcases ho : checkVolatilityCriteria c e with ⟨bo, ov⟩
    rcases hcc : checkCciCriteria c e with ⟨bc, cv⟩
    rcases hr : checkRsiCriteria c e with ⟨br, rv⟩
    rcases hg : checkVolumeGrowthCriteria c e with ⟨bg, gv⟩
    rcases ht : e.ticker with _ | tp <;>
      cases bv <;> cases ba <;> cases bo <;> cases bc <;> cases br <;> cases bg <;>
        simp [screenSingleMarket, screenSteps, hv, ha, ho, hcc, hr, hg, ht]
  · intro markets cand
    rw [screenAllMarkets, (perm_sortByScoreDesc _).mem_iff, List.mem_filterMap]

/-! ## Claim C3 — the all-pass scenario against the default criteria -/

/-- Claim C3, counterexample: the scenario measurements (volume `5·10^9`,
ATH decline `40`, volatility `60`, CCI exactly `10`, RSI exactly `55`,
volume growth `30`) do **not** pass all default criteria: the default
volume-growth floor is `50`, not `20`, so the growth evaluator fails at the
measured `30` and no candidate is created. -/
theorem claim3_counterexample :
    cciLast candlesAcc 20 = some 10 ∧
    rsiLast closesAcc 14 = some 55 ∧
    checkVolumeGrowthCriteria defaultCriteria envScenario = (false, 30) ∧
    screenSingleMarket defaultCriteria ("KRW-AAA") envScenario = none := by
  norm_num [checkVolumeGrowthCriteria, screenSingleMarket, screenSteps,
    checkVolumeCriteria, checkAthDeclineCriteria, checkVolatilityCriteria,
    checkCciCriteria, checkRsiCriteria, defaultCriteria, envScenario,
    cciLast, rsiLast, avgGainLast, avgLossLast, gainsSeries, lossesSeries, diffs,
    smaLast, madLast, rollMeanLast, lastWindow, tpWindow, typicalPrice,
    candlesAcc, closesAcc, flatCandle, List.replicate, List.getLast?,
    abs_eq_max_neg, max_def]

/-- Claim C3 (amended): against the actual default criteria (ATH-decline
floor `30`, volume-growth floor `50`) the scenario asset is rejected at the
volume-growth step and no candidate is created; its measurements would have
scored `71.5`, which maps to the tier `"추천"` ("recommended"), so the
scenario holds only once the growth measurement clears the `50` floor. -/
theorem claim3_amended :
    screenSingleMarket defaultCriteria ("KRW-AAA") envScenario = none ∧
    defaultCriteria.volume_growth_min = 50 ∧
    defaultCriteria.min_decline_from_ath = 30 ∧
    calculateScore defaultCriteria 5000000000 40 60 10 55 120000000000 30 = 143 / 2 ∧
    getRecommendation (143 / 2) = "추천" := by
  refine ⟨?_, rfl, rfl, ?_, ?_⟩
  · norm_num [screenSingleMarket, screenSteps, checkVolumeCriteria,
      checkAthDeclineCriteria, checkVolatilityCriteria, checkCciCriteria,
      checkRsiCriteria, checkVolumeGrowthCriteria, defaultCriteria, envScenario,
      cciLast, rsiLast, avgGainLast, avgLossLast, gainsSeries, lossesSeries,
      diffs, smaLast, madLast, rollMeanLast, lastWindow, tpWindow, typicalPrice,
      candlesAcc, closesAcc, flatCandle, List.replicate, List.getLast?,
      abs_eq_max_neg, max_def]
  · norm_num [calculateScore, volumeScore, athScore, volatilityScore, cciScore,
      rsiScore, marketCapScore, volumeGrowthScore, volatilityMid, defaultCriteria,
      abs_eq_max_neg, max_def]
  · norm_num [getRecommendation]

/-! ## Claim C6 — moving-average criterion (dictionary-key mismatch) -/

/-- Claim C6: on a series whose current price (`110`) is above its 20-day
moving average (`100.5`, offset `+1900/201 %`), the collector's dictionary
carries that offset under the key `position`, but
`check_moving_average_criteria` reads the keys `above_ma` and
`position_vs_ma_pct`, which the collector never sets — so with the default
`require_above_ma = True` it returns fail with measured value `0` instead of
pass with the offset. -/
theorem claim6_ma_key_mismatch :
    dictGet (priceVsMovingAverage maCandles 20) ("position") (PVal.num 0) =
      PVal.num (1900 / 201) ∧
    (0 : ℚ) < 1900 / 201 ∧
    defaultCriteria.require_above_ma = true ∧
    dictGet (priceVsMovingAverage maCandles 20) ("above_ma") (PVal.bool false) =
      PVal.bool false ∧
    dictGet (priceVsMovingAverage maCandles 20) ("position_vs_ma_pct") (PVal.num 0) =
      PVal.num 0 ∧
    checkMovingAverageCriteria defaultCriteria maCandles = (false, 0) := by
  norm_num [checkMovingAverageCriteria, priceVsMovingAverage, dictGet,
    defaultCriteria, maCandles, flatCandle, List.replicate]
  simp

/-! ## Claim C7 — output sorted by score descending, stable on ties -/

/-- Claim C7: the screening output is the list of per-market candidates
sorted by composite score in descending order; the sort is a permutation of
the enumeration-order candidate list, and it is stable — for every score
value, the candidates holding it appear in the same relative order as in the
original market enumeration. -/
theorem claim7_output_sorted_stable (c : ScreenerCriteria)
    (markets : List (String × Env)) :
    List.Sorted (fun a b => b.score ≤ a.score) (screenAllMarkets c markets) ∧
    List.Perm (screenAllMarkets c markets)
      (markets.filterMap (fun me => screenSingleMarket c me.1 me.2)) ∧
    ∀ s : ℚ,
      (screenAllMarkets c markets).filter (fun cd => decide (cd.score = s)) =
        (markets.filterMap (fun me => screenSingleMarket c me.1 me.2)).filter
          (fun cd => decide (cd.score = s)) :=
  ⟨sorted_sortByScoreDesc _, perm_sortByScoreDesc _,
   fun s => filter_score_sortByScoreDesc s _⟩

end Screener
